import Mathlib

/-!
Shallow embedding of the stack scene/progress synchronization core found in
`src/src/views/Header/HeaderSegment.tsx`: the `getDefaultHeaderHeight`
helper of the header segment, and the `Stack` component's derived-state
computation (progress-value seeding and reuse, scene building with
memoization, descriptor resolution), header-height bookkeeping
(`getFloatingHeaderHeights`, `handleLayout`, `handleFloatingHeaderLayout`),
and the per-screen render-instruction computation (transition-config
look-ahead, screen activation, gesture enablement, floating header).

Object identity (JavaScript reference equality) is modelled by giving every
allocated object a numeric `ref`/`id` field; two values of the embedding are
the same object exactly when they are equal as Lean values.  Animated values
are allocated from an explicit fresh-id counter threaded through the state
derivation.  JavaScript `undefined` is modelled by `Option`; a dereference
of `undefined` (which would throw at runtime) makes the modelled function
return `Option.none`.  Numbers that the claims depend on are rationals;
JavaScript truthiness of a number (`x || d`) is modelled as `0` selecting
the default.
-/

/-- Operating system reported by the host platform (`Platform.OS`);
the source distinguishes `ios`, `android`, and everything else. -/
inductive PlatformOS where
  | ios
  | android
  | other
deriving DecidableEq

/-- The host platform capabilities read by the source (`Platform.OS`,
`Platform.isPad`). -/
structure HostPlatform where
  os : PlatformOS
  isPad : Bool
deriving DecidableEq

/-- `Layout`: width/height of the container. -/
structure Layout where
  width : ℚ
  height : ℚ
deriving DecidableEq

/-- `EdgeInsets` of `react-native-safe-area-context`; the stack core only
reads `top`. -/
structure EdgeInsets where
  top : ℚ
  right : ℚ
  bottom : ℚ
  left : ℚ
deriving DecidableEq

/-- An opaque transition spec object (`{ open, close }` pair); the claims
treat it purely by identity. -/
abbrev TransitionSpec := Nat

/-- An opaque card style interpolator function, identified by identity. -/
abbrev CardStyleInterpolator := Nat

/-- Gesture direction option value, treated opaquely. -/
abbrev GestureDirection := Nat

/-- Gesture response distance option value, treated opaquely. -/
abbrev GestureResponseDistance := Nat

/-- Gesture velocity impact option value, treated opaquely. -/
abbrev GestureVelocityImpact := Nat

/-- A header style interpolator function.  `forNoAnimation` is the
imported function used by `Stack.render` to force a non-animated header
when `headerMode` is `screen`; every other interpolator is identified by
an opaque id. -/
inductive HeaderStyleInterpolator where
  | forNoAnimation
  | impl (id : Nat)
deriving DecidableEq

/-- The fields of `NavigationStackOptions` that the stack core reads.
Absent (`undefined`) fields are `Option.none`.  (The remaining option
fields — `header`, `headerShown`, `cardStyle`, lifecycle callbacks, … —
are pass-through props for external collaborators and are not modelled.) -/
structure NavigationStackOptions where
  animationEnabled : Option Bool := Option.none
  gestureDirection : Option GestureDirection := Option.none
  transitionSpec : Option TransitionSpec := Option.none
  cardStyleInterpolator : Option CardStyleInterpolator := Option.none
  headerStyleInterpolator : Option HeaderStyleInterpolator := Option.none
  gestureResponseDistance : Option GestureResponseDistance := Option.none
  gestureVelocityImpact : Option GestureVelocityImpact := Option.none
deriving DecidableEq

/-- A scene descriptor: a configuration bag.  `ref` models the object's
identity (JavaScript reference equality on descriptors). -/
structure Descriptor where
  ref : Nat
  options : NavigationStackOptions
deriving DecidableEq

/-- `FALLBACK_DESCRIPTOR = Object.freeze({ options: {} })` — the single
shared frozen empty-options placeholder (reserved identity `0`). -/
def FALLBACK_DESCRIPTOR : Descriptor :=
  { ref := 0, options := {} }

/-- A navigation route: unique `key` plus object identity `ref`. -/
structure Route where
  ref : Nat
  key : String
deriving DecidableEq

/-- The route array prop.  `ref` models array identity, used by the
`props.routes === state.routes` bail-out check. -/
structure RouteList where
  ref : Nat
  items : List Route
deriving DecidableEq

/-- The descriptor map prop (route key → descriptor).  `ref` models object
identity, used by the `props.descriptors === state.descriptors` check. -/
structure DescriptorMap where
  ref : Nat
  entries : List (String × Descriptor)
deriving DecidableEq

/-- Key lookup in a descriptor map's entries (`descriptors[key]`). -/
def lookupEntries : List (String × Descriptor) → String → Option Descriptor
  | [], _ => Option.none
  | e :: rest, k => if e.1 = k then some e.2 else lookupEntries rest k

/-- `descriptors[key]`. -/
def lookupDesc (m : DescriptorMap) (k : String) : Option Descriptor :=
  lookupEntries m.entries k

/-- An `Animated.Value`: object identity `id` plus the initial value passed
to the constructor.  The current value is mutated externally by the
gesture/animation driver and is not part of the object model. -/
structure AnimatedValue where
  id : Nat
  initial : ℚ
deriving DecidableEq

/-- `ANIMATED_ONE = new Animated.Value(1)` — the module-level
permanently-settled sentinel (reserved identity `0`). -/
def ANIMATED_ONE : AnimatedValue :=
  { id := 0, initial := 1 }

/-- The everywhere-undefined key map. -/
def emptyKeyMap {α : Type} : String → Option α := fun _ => Option.none

/-- `acc[key] = v` on a key map. -/
def setKey {α : Type} (m : String → Option α) (k : String) (v : α) :
    String → Option α :=
  fun q => if q = k then some v else m q

/-- `getDefaultHeaderHeight(layout, insets)` from `HeaderSegment.tsx`:
platform-specific base height (iOS phone landscape 32, iOS otherwise 44,
Android 56, default 64) plus the top inset when insets are present. -/
def getDefaultHeaderHeight (platform : HostPlatform) (layout : Layout)
    (insets : Option EdgeInsets) : ℚ :=
  let isLandscape : Bool := decide (layout.width > layout.height)
  let headerHeight : ℚ :=
    match platform.os with
    | PlatformOS.ios => if isLandscape && !platform.isPad then 32 else 44
    | PlatformOS.android => 56
    | PlatformOS.other => 64
  headerHeight + (match insets with | some i => i.top | Option.none => 0)

/-- JavaScript `x || d` on an optional number: `undefined` and `0` are
falsy and select the default. -/
def orDefault (x : Option ℚ) (d : ℚ) : ℚ :=
  match x with
  | some h => if h = 0 then d else h
  | Option.none => d

/-- The `reduce` callback of `getFloatingHeaderHeights`:
`acc[curr.key] = previous[curr.key] || defaultHeaderHeight`. -/
def heightStep (previous : String → Option ℚ) (defaultHeaderHeight : ℚ)
    (acc : String → Option ℚ) (curr : Route) : String → Option ℚ :=
  setKey acc curr.key (orDefault (previous curr.key) defaultHeaderHeight)

/-- `getFloatingHeaderHeights(routes, insets, layout, previous)`: rebuilds
the header-height map over the given routes, keeping each route's previous
(truthy) entry and defaulting to `getDefaultHeaderHeight`. -/
def getFloatingHeaderHeights (platform : HostPlatform) (routes : List Route)
    (insets : Option EdgeInsets) (layout : Layout)
    (previous : String → Option ℚ) : String → Option ℚ :=
  let defaultHeaderHeight := getDefaultHeaderHeight platform layout insets
  routes.foldl (heightStep previous defaultHeaderHeight) emptyKeyMap

/-- The seed for a newly created progress value in
`Stack.getDerivedStateFromProps`:
`openingRoutesKeys.includes(key) && descriptor && descriptor.options.animationEnabled !== false ? 0 : 1`. -/
def seedValue (openingRoutesKeys : List String) (descriptors : DescriptorMap)
    (key : String) : ℚ :=
  if openingRoutesKeys.contains key &&
      (match lookupDesc descriptors key with
       | some d => !(d.options.animationEnabled == some false)
       | Option.none => false)
  then 0 else 1

/-- The `props.routes.reduce` callback of `Stack.getDerivedStateFromProps`
that builds the new progress map: reuse `state.progress[key]` when present
(`||` short-circuits, so no allocation happens), otherwise allocate a new
`Animated.Value` seeded by `seedValue`.  A fresh-id counter is threaded to
model allocation of distinct objects. -/
def progressStep (openingRoutesKeys : List String)
    (descriptors : DescriptorMap) (prev : String → Option AnimatedValue)
    (acc : (String → Option AnimatedValue) × Nat) (r : Route) :
    (String → Option AnimatedValue) × Nat :=
  match prev r.key with
  | some v => (setKey acc.1 r.key v, acc.2)
  | Option.none =>
    (setKey acc.1 r.key { id := acc.2, initial := seedValue openingRoutesKeys descriptors r.key },
     acc.2 + 1)

/-- The new progress map built by `Stack.getDerivedStateFromProps`, by
folding `progressStep` over the routes starting from the empty map. -/
def ensureProgress (openingRoutesKeys : List String)
    (descriptors : DescriptorMap) (prev : String → Option AnimatedValue)
    (routes : List Route) (fresh : Nat) :
    (String → Option AnimatedValue) × Nat :=
  routes.foldl (progressStep openingRoutesKeys descriptors prev) (emptyKeyMap, fresh)

/-- The progress triple `{ current, next, previous }` stored on a scene.
Each component is the neighbouring route's progress value, or `undefined`. -/
structure ProgressTriple where
  current : Option AnimatedValue
  next : Option AnimatedValue
  previous : Option AnimatedValue
deriving DecidableEq

/-- A derived scene: route, previous route, resolved descriptor, progress
triple. -/
structure Scene where
  route : Route
  previous : Option Route
  descriptor : Descriptor
  progress : ProgressTriple
deriving DecidableEq

/-- Descriptor resolution in `Stack.getDerivedStateFromProps`:
`props.descriptors[key] || state.descriptors[key] || (oldScene ? oldScene.descriptor : FALLBACK_DESCRIPTOR)`. -/
def resolveDescriptor (propsDescriptors stateDescriptors : DescriptorMap)
    (oldScene : Option Scene) (key : String) : Descriptor :=
  match lookupDesc propsDescriptors key with
  | some d => d
  | Option.none =>
    match lookupDesc stateDescriptors key with
    | some d => d
    | Option.none =>
      match oldScene with
      | some s => s.descriptor
      | Option.none => FALLBACK_DESCRIPTOR

/-- The scene object freshly computed for index `index` (before the
memoization check): neighbours looked up in the full route list, progress
values looked up in the just-built progress map, descriptor resolved by
`resolveDescriptor` against the old scene at the same index. -/
def computeScene (progress : String → Option AnimatedValue)
    (propsDescriptors stateDescriptors : DescriptorMap)
    (oldScenes : List Scene) (routes : List Route) (index : Nat)
    (route : Route) : Scene :=
  let previousRoute := if index = 0 then Option.none else routes.get? (index - 1)
  let nextRoute := routes.get? (index + 1)
  { route := route
    previous := previousRoute
    descriptor := resolveDescriptor propsDescriptors stateDescriptors (oldScenes.get? index) route.key
    progress :=
      { current := progress route.key
        next := match nextRoute with
                | some r => progress r.key
                | Option.none => Option.none
        previous := match previousRoute with
                    | some r => progress r.key
                    | Option.none => Option.none } }

/-- One step of the `props.routes.map` in `Stack.getDerivedStateFromProps`:
compute the scene, then return the old scene at the same index unchanged
when route, the three progress references, and the descriptor are all
reference-equal. -/
def buildScene (progress : String → Option AnimatedValue)
    (propsDescriptors stateDescriptors : DescriptorMap)
    (oldScenes : List Scene) (routes : List Route) (index : Nat)
    (route : Route) : Scene :=
  let scene := computeScene progress propsDescriptors stateDescriptors oldScenes routes index route
  match oldScenes.get? index with
  | some oldScene =>
    if scene.route = oldScene.route ∧
        scene.progress.current = oldScene.progress.current ∧
        scene.progress.next = oldScene.progress.next ∧
        scene.progress.previous = oldScene.progress.previous ∧
        scene.descriptor = oldScene.descriptor
    then oldScene
    else scene
  | Option.none => scene

/-- The full `props.routes.map((route, index, self) => …)` scene list. -/
def buildScenes (progress : String → Option AnimatedValue)
    (propsDescriptors stateDescriptors : DescriptorMap)
    (oldScenes : List Scene) (routes : List Route) : List Scene :=
  routes.enum.map
    (fun p => buildScene progress propsDescriptors stateDescriptors oldScenes routes p.1 p.2)

/-- The props of the `Stack` component consumed by the state derivation. -/
structure StackProps where
  routes : RouteList
  descriptors : DescriptorMap
  openingRoutesKeys : List String
  insets : Option EdgeInsets

/-- The state of the `Stack` component. -/
structure StackState where
  routes : RouteList
  descriptors : DescriptorMap
  scenes : List Scene
  progress : String → Option AnimatedValue
  layout : Layout
  floatingHeaderHeights : String → Option ℚ

/-- `Stack.getDerivedStateFromProps`: bail out (`null`) when both the route
array and the descriptor map are reference-equal to the ones already in
state; otherwise rebuild progress map, scenes, and floating header heights.
The fresh-id counter for `Animated.Value` allocation is threaded through. -/
def Stack.getDerivedStateFromProps (platform : HostPlatform)
    (props : StackProps) (state : StackState) (fresh : Nat) :
    Option (StackState × Nat) :=
  if props.routes = state.routes ∧ props.descriptors = state.descriptors then
    Option.none
  else
    let pf := ensureProgress props.openingRoutesKeys props.descriptors
      state.progress props.routes.items fresh
    some
      ({ routes := props.routes
         scenes := buildScenes pf.1 props.descriptors state.descriptors
           state.scenes props.routes.items
         progress := pf.1
         descriptors := props.descriptors
         layout := state.layout
         floatingHeaderHeights := getFloatingHeaderHeights platform
           props.routes.items props.insets state.layout
           state.floatingHeaderHeights },
       pf.2)

/-- Apply one derivation: a `null` result leaves the state unchanged (React
keeps the previous state when `getDerivedStateFromProps` returns `null`). -/
def applyDerivation (platform : HostPlatform) (props : StackProps)
    (sf : StackState × Nat) : StackState × Nat :=
  match Stack.getDerivedStateFromProps platform props sf.1 sf.2 with
  | some s => s
  | Option.none => sf

/-- Apply a sequence of prop updates, deriving state after each. -/
def applyDerivations (platform : HostPlatform) (steps : List StackProps)
    (sf : StackState × Nat) : StackState × Nat :=
  steps.foldl (fun acc p => applyDerivation platform p acc) sf

/-- `Stack.handleLayout`: ignore a layout event that matches the stored
layout; otherwise store the new layout and rebuild the header-height map
from scratch (previous heights `{}`), so every route gets the platform
default for the new layout.  `Option.none` models the early `return`. -/
def Stack.handleLayout (platform : HostPlatform) (props : StackProps)
    (state : StackState) (e : Layout) : Option StackState :=
  if e.height = state.layout.height ∧ e.width = state.layout.width then
    Option.none
  else
    some
      { state with
        layout := e
        floatingHeaderHeights := getFloatingHeaderHeights platform
          props.routes.items props.insets e emptyKeyMap }

/-- `Stack.handleFloatingHeaderLayout`: skip when the previous height for
the route's key is truthy (present and nonzero) and equal to the reported
height; otherwise spread the old map with only this key updated.
`Option.none` models the early `return`. -/
def Stack.handleFloatingHeaderLayout (heights : String → Option ℚ)
    (routeKey : String) (height : ℚ) : Option (String → Option ℚ) :=
  match heights routeKey with
  | some previousHeight =>
    if previousHeight ≠ 0 ∧ previousHeight = height then Option.none
    else some (setKey heights routeKey height)
  | Option.none => some (setKey heights routeKey height)

/-- Stack presentation mode. -/
inductive StackMode where
  | card
  | modal
deriving DecidableEq

/-- Header display mode. -/
inductive HeaderMode where
  | float
  | screen
  | none
deriving DecidableEq

/-- A transition preset (`DefaultTransition` / `ModalTransition`): the four
preset fields that `Stack.render` reads.  The preset objects themselves live
in `TransitionConfigs/TransitionPresets` outside the modelled source, so the
render model takes them as parameters. -/
structure TransitionPreset where
  gestureDirection : GestureDirection
  transitionSpec : TransitionSpec
  cardStyleInterpolator : CardStyleInterpolator
  headerStyleInterpolator : HeaderStyleInterpolator
deriving DecidableEq

/-- The `defaultTransitionPreset` local of `Stack.render`: the modal preset
when mode is `modal`, else the default preset; with the header style
interpolator forced to `forNoAnimation` when `headerMode` is `screen`. -/
def defaultTransitionPreset (mode : StackMode) (headerMode : HeaderMode)
    (defaultTransition modalTransition : TransitionPreset) : TransitionPreset :=
  let p := if mode = StackMode.modal then modalTransition else defaultTransition
  if headerMode = HeaderMode.screen then
    { p with headerStyleInterpolator := HeaderStyleInterpolator.forNoAnimation }
  else p

/-- The `isScreenActive` value passed to a screen wrapper: either a constant
(`0`/`1`) or the reanimated expression `cond(eq(next, 1), 0, 1)` over the
next route's progress node. -/
inductive ScreenActivation where
  | const (value : Nat)
  | condNextEqOne (next : AnimatedValue)
deriving DecidableEq

/-- Evaluate a `ScreenActivation` given the current numeric value of the
`next` progress node: `cond(eq(next, 1), 0, 1)` is `0` when the value is `1`
and `1` otherwise. -/
def evalActivation (a : ScreenActivation) (nextValue : ℚ) : ℚ :=
  match a with
  | ScreenActivation.const v => v
  | ScreenActivation.condNextEqOne _ => if nextValue = 1 then 0 else 1

/-- The `isScreenActive` computation of `Stack.render`:
last index → `1`; on Android → `cond(eq(next, 1), 0, 1)`;
second-from-last → `1`; otherwise `0`. -/
def isScreenActive (platform : HostPlatform) (index total : Nat)
    (next : AnimatedValue) : ScreenActivation :=
  if index = total - 1 then ScreenActivation.const 1
  else if platform.os = PlatformOS.android then ScreenActivation.condNextEqOne next
  else if index = total - 2 then ScreenActivation.const 1
  else ScreenActivation.const 0

/-- The render instruction emitted for one screen: the props of the screen
wrapper and `StackItem` that the claims are about.  The final transition
fields are the ones after the `{...transitionConfig}` spread, which
overrides the scene's own `transitionSpec`/`cardStyleInterpolator`/
`headerStyleInterpolator` props.  (Pure pass-through props — `closing`,
`focused`, header visibility, callbacks, … — are not modelled.) -/
structure ScreenInstruction where
  routeKey : String
  active : Bool
  screenActive : ScreenActivation
  currentProgress : Option AnimatedValue
  gestureEnabled : Bool
  gestureDirection : GestureDirection
  gestureResponseDistance : Option GestureResponseDistance
  gestureVelocityImpact : Option GestureVelocityImpact
  transitionSpec : TransitionSpec
  cardStyleInterpolator : CardStyleInterpolator
  headerStyleInterpolator : HeaderStyleInterpolator
deriving DecidableEq

/-- The body of the `routes.map` loop in `Stack.render` for one index:
resolve the scene's own configuration from its descriptor options with the
preset as fallback, replace the three transition fields by the next scene's
resolution when the screen is not the last and a next scene exists, and
compute activation and gesture enablement.  `Option.none` models the
runtime fault of dereferencing a missing scene, or a missing progress value
for the next route (unreachable after a derivation over the same routes). -/
def renderScreen (platform : HostPlatform) (preset : TransitionPreset)
    (getGesturesEnabled : Route → Bool) (routes : List Route)
    (scenes : List Scene) (progress : String → Option AnimatedValue)
    (index : Nat) : Option ScreenInstruction :=
  match routes.get? index, scenes.get? index with
  | some route, some scene =>
    let nextValue : Option AnimatedValue :=
      match routes.get? (index + 1) with
      | some nextRoute => progress nextRoute.key
      | Option.none => some ANIMATED_ONE
    match nextValue with
    | some next =>
      let opts := scene.descriptor.options
      let ownGestureDirection := opts.gestureDirection.getD preset.gestureDirection
      let ownTransitionSpec := opts.transitionSpec.getD preset.transitionSpec
      let ownCardStyleInterpolator :=
        opts.cardStyleInterpolator.getD preset.cardStyleInterpolator
      let ownHeaderStyleInterpolator :=
        opts.headerStyleInterpolator.getD preset.headerStyleInterpolator
      let transitionConfig :
          TransitionSpec × CardStyleInterpolator × HeaderStyleInterpolator :=
        if index = routes.length - 1 then
          (ownTransitionSpec, ownCardStyleInterpolator, ownHeaderStyleInterpolator)
        else
          match scenes.get? (index + 1) with
          | some nextScene =>
            (nextScene.descriptor.options.transitionSpec.getD preset.transitionSpec,
             nextScene.descriptor.options.cardStyleInterpolator.getD preset.cardStyleInterpolator,
             nextScene.descriptor.options.headerStyleInterpolator.getD preset.headerStyleInterpolator)
          | Option.none =>
            (ownTransitionSpec, ownCardStyleInterpolator, ownHeaderStyleInterpolator)
      some
        { routeKey := route.key
          active := decide (index = routes.length - 1)
          screenActive := isScreenActive platform index routes.length next
          currentProgress := progress route.key
          gestureEnabled := decide (index ≠ 0) && getGesturesEnabled route
          gestureDirection := ownGestureDirection
          gestureResponseDistance := opts.gestureResponseDistance
          gestureVelocityImpact := opts.gestureVelocityImpact
          transitionSpec := transitionConfig.1
          cardStyleInterpolator := transitionConfig.2.1
          headerStyleInterpolator := transitionConfig.2.2 }
    | Option.none => Option.none
  | _, _ => Option.none

/-- The floating header render request (`renderHeader({...})`); the claims
are about its resolved style interpolator. -/
structure FloatingHeaderProps where
  styleInterpolator : HeaderStyleInterpolator
deriving DecidableEq

/-- The output of one `Stack.render` pass: instructions for every screen,
plus the floating header request when `headerMode` is `float`. -/
structure RenderOutput where
  screens : List ScreenInstruction
  floatingHeader : Option FloatingHeaderProps

/-- `Stack.render`: look up the focused route from the navigation state,
resolve `focusedOptions` (empty when the focused route has no descriptor),
compute the mode-default preset, emit one instruction per route, and emit
the floating header exactly once, outside the per-route loop, when
`headerMode` is `float`, with the focused route's header style interpolator
when defined and the preset's otherwise. -/
def Stack.render (platform : HostPlatform) (mode : StackMode)
    (headerMode : HeaderMode)
    (defaultTransition modalTransition : TransitionPreset)
    (getGesturesEnabled : Route → Bool) (navRoutes : List Route)
    (navIndex : Nat) (descriptors : DescriptorMap) (routes : List Route)
    (scenes : List Scene) (progress : String → Option AnimatedValue) :
    Option RenderOutput :=
  match navRoutes.get? navIndex with
  | some focusedRoute =>
    let focusedOptions : NavigationStackOptions :=
      match lookupDesc descriptors focusedRoute.key with
      | some d => d.options
      | Option.none => {}
    let preset := defaultTransitionPreset mode headerMode defaultTransition modalTransition
    match (List.range routes.length).mapM
        (renderScreen platform preset getGesturesEnabled routes scenes progress) with
    | some screens =>
      some
        { screens := screens
          floatingHeader :=
            if headerMode = HeaderMode.float then
              some { styleInterpolator :=
                       focusedOptions.headerStyleInterpolator.getD
                         preset.headerStyleInterpolator }
            else Option.none }
    | Option.none => Option.none
  | Option.none => Option.none

/-! ### Helper lemmas -/

theorem setKey_self {α : Type} (m : String → Option α) (k : String) (v : α) :
    setKey m k v k = some v := by
  simp [setKey]

theorem setKey_ne {α : Type} (m : String → Option α) (k q : String) (v : α)
    (h : q ≠ k) : setKey m k v q = m q := by
  simp [setKey, h]

theorem foldl_progressStep_preserve (opening : List String)
    (descs : DescriptorMap) (prev : String → Option AnimatedValue)
    (K : String) (v : AnimatedValue) (hprev : prev K = some v) :
    ∀ (routes : List Route) (acc : (String → Option AnimatedValue) × Nat),
      ((∃ r ∈ routes, r.key = K) ∨ acc.1 K = some v) →
      (routes.foldl (progressStep opening descs prev) acc).1 K = some v := by
  intro routes
  induction routes with
  | nil =>
    intro acc h
    rcases h with h | h
    · rcases h with ⟨r, hr, _⟩
      cases hr
    · simpa using h
  | cons r rest ih =>
    intro acc h
    rw [List.foldl_cons]
    apply ih
    by_cases hk : r.key = K
    · right
      subst hk
      simp [progressStep, hprev, setKey_self]
    · rcases h with h | h
      · rcases h with ⟨r2, hr2, hkey⟩
        rcases List.mem_cons.mp hr2 with rfl | hr2
        · exact absurd hkey hk
        · exact Or.inl ⟨r2, hr2, hkey⟩
      · right
        have hne : K ≠ r.key := fun he => hk he.symm
        unfold progressStep
        cases hp : prev r.key <;> simp [setKey_ne _ _ _ _ hne, h]

theorem foldl_progressStep_seed (opening : List String)
    (descs : DescriptorMap) (prev : String → Option AnimatedValue)
    (K : String) (hprev : prev K = Option.none) :
    ∀ (routes : List Route) (acc : (String → Option AnimatedValue) × Nat),
      ((∃ r ∈ routes, r.key = K) ∨
        (∃ v : AnimatedValue, acc.1 K = some v ∧
          v.initial = seedValue opening descs K)) →
      ∃ v : AnimatedValue,
        (routes.foldl (progressStep opening descs prev) acc).1 K = some v ∧
        v.initial = seedValue opening descs K := by
  intro routes
  induction routes with
  | nil =>
    intro acc h
    rcases h with h | h
    · rcases h with ⟨r, hr, _⟩
      cases hr
    · simpa using h
  | cons r rest ih =>
    intro acc h
    rw [List.foldl_cons]
    apply ih
    by_cases hk : r.key = K
    · right
      subst hk
      refine ⟨{ id := acc.2, initial := seedValue opening descs r.key }, ?_, rfl⟩
      simp [progressStep, hprev, setKey_self]
    · rcases h with h | h
      · rcases h with ⟨r2, hr2, hkey⟩
        rcases List.mem_cons.mp hr2 with rfl | hr2
        · exact absurd hkey hk
        · exact Or.inl ⟨r2, hr2, hkey⟩
      · right
        rcases h with ⟨v, hv, hvi⟩
        refine ⟨v, ?_, hvi⟩
        have hne : K ≠ r.key := fun he => hk he.symm
        unfold progressStep
        cases hp : prev r.key <;> simp [setKey_ne _ _ _ _ hne, hv]

theorem ensureProgress_reuse (opening : List String) (descs : DescriptorMap)
    (prev : String → Option AnimatedValue) (routes : List Route) (fresh : Nat)
    (K : String) (v : AnimatedValue) (hprev : prev K = some v)
    (hmem : ∃ r ∈ routes, r.key = K) :
    (ensureProgress opening descs prev routes fresh).1 K = some v :=
  foldl_progressStep_preserve opening descs prev K v hprev routes
    (emptyKeyMap, fresh) (Or.inl hmem)

theorem ensureProgress_seed (opening : List String) (descs : DescriptorMap)
    (prev : String → Option AnimatedValue) (routes : List Route) (fresh : Nat)
    (K : String) (hprev : prev K = Option.none)
    (hmem : ∃ r ∈ routes, r.key = K) :
    ∃ v : AnimatedValue,
      (ensureProgress opening descs prev routes fresh).1 K = some v ∧
      v.initial = seedValue opening descs K :=
  foldl_progressStep_seed opening descs prev K hprev routes
    (emptyKeyMap, fresh) (Or.inl hmem)

theorem foldl_heightStep_lookup (previous : String → Option ℚ) (d : ℚ)
    (K : String) :
    ∀ (routes : List Route) (acc : String → Option ℚ),
      routes.foldl (heightStep previous d) acc K =
        if ∃ r ∈ routes, r.key = K then some (orDefault (previous K) d)
        else acc K := by
  intro routes
  induction routes with
  | nil =>
    intro acc
    simp
  | cons r rest ih =>
    intro acc
    rw [List.foldl_cons, ih]
    by_cases hk : r.key = K
    · have hex : ∃ r2 ∈ r :: rest, r2.key = K := ⟨r, List.mem_cons_self r rest, hk⟩
      rw [if_pos hex]
      by_cases hrest : ∃ r2 ∈ rest, r2.key = K
      · rw [if_pos hrest]
      · rw [if_neg hrest]
        subst hk
        simp [heightStep, setKey_self]
    · have hne : K ≠ r.key := fun he => hk he.symm
      have hstep : heightStep previous d acc r K = acc K := by
        simp [heightStep, setKey_ne _ _ _ _ hne]
      by_cases hrest : ∃ r2 ∈ rest, r2.key = K
      · have hex : ∃ r2 ∈ r :: rest, r2.key = K := by
          rcases hrest with ⟨r2, hr2, hkey⟩
          exact ⟨r2, List.mem_cons_of_mem _ hr2, hkey⟩
        rw [if_pos hrest, if_pos hex]
      · have hex : ¬∃ r2 ∈ r :: rest, r2.key = K := by
          intro hc
          rcases hc with ⟨r2, hr2, hkey⟩
          rcases List.mem_cons.mp hr2 with rfl | hr2
          · exact hk hkey
          · exact hrest ⟨r2, hr2, hkey⟩
        rw [if_neg hrest, if_neg hex, hstep]

theorem getFloatingHeaderHeights_lookup (platform : HostPlatform)
    (routes : List Route) (insets : Option EdgeInsets) (layout : Layout)
    (previous : String → Option ℚ) (K : String) :
    getFloatingHeaderHeights platform routes insets layout previous K =
      if ∃ r ∈ routes, r.key = K then
        some (orDefault (previous K) (getDefaultHeaderHeight platform layout insets))
      else Option.none := by
  unfold getFloatingHeaderHeights
  rw [foldl_heightStep_lookup]
  rfl

theorem buildScenes_get? (p : String → Option AnimatedValue)
    (pD sD : DescriptorMap) (olds : List Scene) (routes : List Route)
    (i : Nat) :
    (buildScenes p pD sD olds routes).get? i =
      (routes.get? i).map (buildScene p pD sD olds routes i) := by
  unfold buildScenes
  rw [List.get?_eq_getElem?, List.getElem?_map, List.getElem?_enum,
    ← List.get?_eq_getElem?]
  cases routes.get? i <;> rfl

attribute [ext] ProgressTriple

theorem computeScene_route (p : String → Option AnimatedValue)
    (pD sD : DescriptorMap) (olds : List Scene) (routes : List Route)
    (i : Nat) (r : Route) :
    (computeScene p pD sD olds routes i r).route = r := rfl

theorem computeScene_descriptor (p : String → Option AnimatedValue)
    (pD sD : DescriptorMap) (olds : List Scene) (routes : List Route)
    (i : Nat) (r : Route) :
    (computeScene p pD sD olds routes i r).descriptor =
      resolveDescriptor pD sD (olds.get? i) r.key := rfl

theorem computeScene_progress_indep (p : String → Option AnimatedValue)
    (pD sD : DescriptorMap) (olds olds2 : List Scene) (routes : List Route)
    (i : Nat) (r : Route) :
    (computeScene p pD sD olds routes i r).progress =
      (computeScene p pD sD olds2 routes i r).progress := rfl

theorem buildScene_memo (p : String → Option AnimatedValue)
    (pD sD : DescriptorMap) (olds : List Scene) (routes : List Route)
    (i : Nat) (r : Route) (old : Scene) (ho : olds.get? i = some old)
    (h1 : (computeScene p pD sD olds routes i r).route = old.route)
    (h2 : (computeScene p pD sD olds routes i r).progress.current = old.progress.current)
    (h3 : (computeScene p pD sD olds routes i r).progress.next = old.progress.next)
    (h4 : (computeScene p pD sD olds routes i r).progress.previous = old.progress.previous)
    (h5 : (computeScene p pD sD olds routes i r).descriptor = old.descriptor) :
    buildScene p pD sD olds routes i r = old := by
  simp only [buildScene, ho]
  rw [if_pos ⟨h1, h2, h3, h4, h5⟩]

theorem buildScene_route (p : String → Option AnimatedValue)
    (pD sD : DescriptorMap) (olds : List Scene) (routes : List Route)
    (i : Nat) (r : Route) :
    (buildScene p pD sD olds routes i r).route = r := by
  simp only [buildScene]
  cases ho : olds.get? i with
  | none => rfl
  | some old =>
    dsimp only
    split_ifs with hc
    · rw [← hc.1]
      exact computeScene_route p pD sD olds routes i r
    · rfl

theorem buildScene_progress (p : String → Option AnimatedValue)
    (pD sD : DescriptorMap) (olds : List Scene) (routes : List Route)
    (i : Nat) (r : Route) :
    (buildScene p pD sD olds routes i r).progress =
      (computeScene p pD sD olds routes i r).progress := by
  simp only [buildScene]
  cases ho : olds.get? i with
  | none => rfl
  | some old =>
    dsimp only
    split_ifs with hc
    · obtain ⟨_, h2, h3, h4, _⟩ := hc
      exact ProgressTriple.ext h2.symm h3.symm h4.symm
    · rfl

theorem buildScene_descriptor (p : String → Option AnimatedValue)
    (pD sD : DescriptorMap) (olds : List Scene) (routes : List Route)
    (i : Nat) (r : Route) :
    (buildScene p pD sD olds routes i r).descriptor =
      resolveDescriptor pD sD (olds.get? i) r.key := by
  simp only [buildScene]
  cases ho : olds.get? i with
  | none => rw [computeScene_descriptor, ho]
  | some old =>
    dsimp only
    split_ifs with hc
    · rw [← hc.2.2.2.2, computeScene_descriptor, ho]
    · rw [computeScene_descriptor, ho]

theorem resolveDescriptor_absorb (pD sD : DescriptorMap) (old0 : Option Scene)
    (sc : Scene) (k : String)
    (h : sc.descriptor = resolveDescriptor pD sD old0 k) :
    resolveDescriptor pD sD (some sc) k = sc.descriptor := by
  unfold resolveDescriptor at h ⊢
  cases hp : lookupDesc pD k with
  | some d =>
    rw [hp] at h
    exact h.symm
  | none =>
    rw [hp] at h
    cases hs : lookupDesc sD k with
    | some d =>
      rw [hs] at h
      exact h.symm
    | none => rfl

theorem buildScenes_idem (p : String → Option AnimatedValue)
    (pD sD : DescriptorMap) (olds : List Scene) (routes : List Route) :
    buildScenes p pD sD (buildScenes p pD sD olds routes) routes =
      buildScenes p pD sD olds routes := by
  apply List.ext_get?
  intro n
  rw [buildScenes_get?, buildScenes_get?]
  cases hr : routes.get? n with
  | none => rfl
  | some r =>
    simp only [Option.map_some']
    congr 1
    have hout : (buildScenes p pD sD olds routes).get? n =
        some (buildScene p pD sD olds routes n r) := by
      rw [buildScenes_get?, hr, Option.map_some']
    apply buildScene_memo _ _ _ _ _ _ _ _ hout
    · rw [computeScene_route, buildScene_route]
    · rw [computeScene_progress_indep p pD sD _ olds routes n r, buildScene_progress]
    · rw [computeScene_progress_indep p pD sD _ olds routes n r, buildScene_progress]
    · rw [computeScene_progress_indep p pD sD _ olds routes n r, buildScene_progress]
    · rw [computeScene_descriptor, hout]
      exact resolveDescriptor_absorb pD sD (olds.get? n) _ r.key
        (buildScene_descriptor p pD sD olds routes n r)

theorem renderScreen_inv (platform : HostPlatform) (preset : TransitionPreset)
    (gg : Route → Bool) (routes : List Route) (scenes : List Scene)
    (progress : String → Option AnimatedValue) (index : Nat)
    (instr : ScreenInstruction)
    (h : renderScreen platform preset gg routes scenes progress index = some instr) :
    ∃ route scene next,
      routes.get? index = some route ∧ scenes.get? index = some scene ∧
      (match routes.get? (index + 1) with
       | some nr => progress nr.key
       | Option.none => some ANIMATED_ONE) = some next ∧
      instr =
        { routeKey := route.key
          active := decide (index = routes.length - 1)
          screenActive := isScreenActive platform index routes.length next
          currentProgress := progress route.key
          gestureEnabled := decide (index ≠ 0) && gg route
          gestureDirection :=
            scene.descriptor.options.gestureDirection.getD preset.gestureDirection
          gestureResponseDistance := scene.descriptor.options.gestureResponseDistance
          gestureVelocityImpact := scene.descriptor.options.gestureVelocityImpact
          transitionSpec :=
            (if index = routes.length - 1 then
              (scene.descriptor.options.transitionSpec.getD preset.transitionSpec,
               scene.descriptor.options.cardStyleInterpolator.getD preset.cardStyleInterpolator,
               scene.descriptor.options.headerStyleInterpolator.getD preset.headerStyleInterpolator)
            else
              match scenes.get? (index + 1) with
              | some nextScene =>
                (nextScene.descriptor.options.transitionSpec.getD preset.transitionSpec,
                 nextScene.descriptor.options.cardStyleInterpolator.getD preset.cardStyleInterpolator,
                 nextScene.descriptor.options.headerStyleInterpolator.getD preset.headerStyleInterpolator)
              | Option.none =>
                (scene.descriptor.options.transitionSpec.getD preset.transitionSpec,
                 scene.descriptor.options.cardStyleInterpolator.getD preset.cardStyleInterpolator,
                 scene.descriptor.options.headerStyleInterpolator.getD preset.headerStyleInterpolator)).1
          cardStyleInterpolator :=
            (if index = routes.length - 1 then
              (scene.descriptor.options.transitionSpec.getD preset.transitionSpec,
               scene.descriptor.options.cardStyleInterpolator.getD preset.cardStyleInterpolator,
               scene.descriptor.options.headerStyleInterpolator.getD preset.headerStyleInterpolator)
            else
              match scenes.get? (index + 1) with
              | some nextScene =>
                (nextScene.descriptor.options.transitionSpec.getD preset.transitionSpec,
                 nextScene.descriptor.options.cardStyleInterpolator.getD preset.cardStyleInterpolator,
                 nextScene.descriptor.options.headerStyleInterpolator.getD preset.headerStyleInterpolator)
              | Option.none =>
                (scene.descriptor.options.transitionSpec.getD preset.transitionSpec,
                 scene.descriptor.options.cardStyleInterpolator.getD preset.cardStyleInterpolator,
                 scene.descriptor.options.headerStyleInterpolator.getD preset.headerStyleInterpolator)).2.1
          headerStyleInterpolator :=
            (if index = routes.length - 1 then
              (scene.descriptor.options.transitionSpec.getD preset.transitionSpec,
               scene.descriptor.options.cardStyleInterpolator.getD preset.cardStyleInterpolator,
               scene.descriptor.options.headerStyleInterpolator.getD preset.headerStyleInterpolator)
            else
              match scenes.get? (index + 1) with
              | some nextScene =>
                (nextScene.descriptor.options.transitionSpec.getD preset.transitionSpec,
                 nextScene.descriptor.options.cardStyleInterpolator.getD preset.cardStyleInterpolator,
                 nextScene.descriptor.options.headerStyleInterpolator.getD preset.headerStyleInterpolator)
              | Option.none =>
                (scene.descriptor.options.transitionSpec.getD preset.transitionSpec,
                 scene.descriptor.options.cardStyleInterpolator.getD preset.cardStyleInterpolator,
                 scene.descriptor.options.headerStyleInterpolator.getD preset.headerStyleInterpolator)).2.2 } := by
  unfold renderScreen at h
  cases hr : routes.get? index with
  | none => rw [hr] at h; exact absurd h (by simp)
  | some route =>
    rw [hr] at h
    cases hs : scenes.get? index with
    | none => rw [hs] at h; exact absurd h (by simp)
    | some scene =>
      rw [hs] at h
      dsimp only at h
      cases hn : (match routes.get? (index + 1) with
          | some nr => progress nr.key
          | Option.none => some ANIMATED_ONE) with
      | none => rw [hn] at h; exact absurd h (by simp)
      | some next =>
        rw [hn] at h
        dsimp only at h
        exact ⟨route, scene, next, rfl, rfl, rfl, (Option.some.inj h).symm⟩

/-! ### Claim theorems -/

theorem derivation_progress_reuse (platform : HostPlatform)
    (props : StackProps) (state : StackState) (fresh : Nat) (K : String)
    (v : AnimatedValue) (hprev : state.progress K = some v)
    (hmem : ∃ r ∈ props.routes.items, r.key = K) :
    (applyDerivation platform props (state, fresh)).1.progress K = some v := by
  unfold applyDerivation Stack.getDerivedStateFromProps
  split_ifs with hg
  · simpa using hprev
  · exact ensureProgress_reuse props.openingRoutesKeys props.descriptors
      state.progress props.routes.items fresh K v hprev hmem

/-- Claim C1: for every route key K present in both the previous derived
state's progress map and the new route list, the state derivation keeps the
very same progress value object for K; and across any sequence of
route-list/descriptor changes that keeps K present, K's progress value is
never recreated. -/
theorem progressValueReuse :
    (∀ (platform : HostPlatform) (props : StackProps) (state : StackState)
       (fresh : Nat) (K : String) (v : AnimatedValue),
       state.progress K = some v →
       (∃ r ∈ props.routes.items, r.key = K) →
       (applyDerivation platform props (state, fresh)).1.progress K = some v) ∧
    (∀ (platform : HostPlatform) (steps : List StackProps)
       (sf : StackState × Nat) (K : String) (v : AnimatedValue),
       sf.1.progress K = some v →
       (∀ p ∈ steps, ∃ r ∈ p.routes.items, r.key = K) →
       (applyDerivations platform steps sf).1.progress K = some v) := by
  constructor
  · exact derivation_progress_reuse
  · intro platform steps
    induction steps with
    | nil =>
      intro sf K v h _
      simpa [applyDerivations] using h
    | cons p rest ih =>
      intro sf K v h hall
      have h1 : (applyDerivation platform p sf).1.progress K = some v :=
        derivation_progress_reuse platform p sf.1 sf.2 K v h
          (hall p (List.mem_cons_self p rest))
      have h2 := ih (applyDerivation platform p sf) K v h1
        (fun q hq => hall q (List.mem_cons_of_mem _ hq))
      simpa [applyDerivations] using h2

/-- Witness for C1: a concrete derivation step over route key `A` reuses
the stored progress value object (identity 7) unchanged. -/
theorem progressValueReuse_witness :
    (applyDerivations { os := PlatformOS.ios, isPad := false }
        [{ routes := { ref := 2, items := [{ ref := 1, key := "A" }] },
           descriptors := { ref := 2, entries := [] },
           openingRoutesKeys := [], insets := Option.none }]
        ({ routes := { ref := 1, items := [] },
           descriptors := { ref := 1, entries := [] },
           scenes := [],
           progress := setKey emptyKeyMap "A" { id := 7, initial := 1 },
           layout := { width := 360, height := 640 },
           floatingHeaderHeights := emptyKeyMap }, 8)).1.progress "A" =
      some { id := 7, initial := 1 } := by
  apply progressValueReuse.2
  · rfl
  · intro p hp
    rcases List.mem_singleton.mp hp with rfl
    exact ⟨{ ref := 1, key := "A" }, List.mem_singleton.mpr rfl, rfl⟩

/-- Claim C2 counterexample: route key `A` is newly observed (no previous
progress entry), is in the opening-keys set, and its `animationEnabled` is
not explicitly `false` (it has no descriptor at all) — yet the derivation
seeds its progress value at 1, not 0, because the code additionally
requires the descriptor to exist. -/
theorem seedCorrectness_cex :
    (ensureProgress ["A"] { ref := 1, entries := [] } emptyKeyMap
        [{ ref := 1, key := "A" }] 1).1 "A" =
      some { id := 1, initial := 1 } ∧
    (1 : ℚ) ≠ 0 ∧
    "A" ∈ ["A"] ∧
    ¬(∃ d, lookupDesc { ref := 1, entries := [] } "A" = some d ∧
        d.options.animationEnabled = some false) := by
  refine ⟨by rfl, by norm_num, by simp, ?_⟩
  rintro ⟨d, hd, -⟩
  simp [lookupDesc, lookupEntries] at hd

theorem seedValue_eq_zero_iff (opening : List String) (descs : DescriptorMap)
    (K : String) :
    seedValue opening descs K = 0 ↔
      (K ∈ opening ∧ ∃ d, lookupDesc descs K = some d ∧
        d.options.animationEnabled ≠ some false) := by
  unfold seedValue
  split_ifs with hc
  · simp only [true_iff]
    rw [Bool.and_eq_true] at hc
    obtain ⟨hmem, hdesc⟩ := hc
    refine ⟨List.elem_iff.mp hmem, ?_⟩
    cases hd : lookupDesc descs K with
    | none => rw [hd] at hdesc; exact absurd hdesc (by simp)
    | some d =>
      rw [hd] at hdesc
      refine ⟨d, rfl, ?_⟩
      simpa using hdesc
  · rw [iff_false_intro (by norm_num : (1 : ℚ) ≠ 0), false_iff]
    rintro ⟨hmem, d, hd, hne⟩
    apply hc
    rw [Bool.and_eq_true]
    refine ⟨List.elem_iff.mpr hmem, ?_⟩
    rw [hd]
    simpa using hne

theorem seedValue_eq_one (opening : List String) (descs : DescriptorMap)
    (K : String) (h : seedValue opening descs K ≠ 0) :
    seedValue opening descs K = 1 := by
  unfold seedValue at h ⊢
  split_ifs with hc
  · rw [if_pos hc] at h
    exact absurd rfl h
  · rfl

/-- Claim C2 (amended): a newly observed route key K is seeded at 0 exactly
when K is in the opening-keys set AND K has a descriptor in the fresh
descriptor map AND that descriptor's `animationEnabled` is not explicitly
`false`; every other newly observed key — including an opening key with no
descriptor — is seeded at 1. -/
theorem seedCorrectness_amended (opening : List String)
    (descs : DescriptorMap) (prev : String → Option AnimatedValue)
    (routes : List Route) (fresh : Nat) (K : String)
    (hprev : prev K = Option.none) (hmem : ∃ r ∈ routes, r.key = K) :
    ((K ∈ opening ∧ ∃ d, lookupDesc descs K = some d ∧
        d.options.animationEnabled ≠ some false) →
      ∃ v : AnimatedValue,
        (ensureProgress opening descs prev routes fresh).1 K = some v ∧
        v.initial = 0) ∧
    (¬(K ∈ opening ∧ ∃ d, lookupDesc descs K = some d ∧
        d.options.animationEnabled ≠ some false) →
      ∃ v : AnimatedValue,
        (ensureProgress opening descs prev routes fresh).1 K = some v ∧
        v.initial = 1) := by
  obtain ⟨v, hv, hvi⟩ := ensureProgress_seed opening descs prev routes fresh K hprev hmem
  constructor
  · intro hcond
    exact ⟨v, hv, hvi.trans ((seedValue_eq_zero_iff opening descs K).mpr hcond)⟩
  · intro hcond
    refine ⟨v, hv, hvi.trans (seedValue_eq_one opening descs K ?_)⟩
    intro h0
    exact hcond ((seedValue_eq_zero_iff opening descs K).mp h0)

/-- Witness for the amended C2: with a descriptor present and
`animationEnabled` unset, an opening key seeds at 0. -/
theorem seedCorrectness_amended_witness :
    ∃ v : AnimatedValue,
      (ensureProgress ["A"]
          { ref := 1, entries := [("A", { ref := 3, options := {} })] }
          emptyKeyMap [{ ref := 1, key := "A" }] 5).1 "A" = some v ∧
      v.initial = 0 := by
  apply (seedCorrectness_amended ["A"]
      { ref := 1, entries := [("A", { ref := 3, options := {} })] }
      emptyKeyMap [{ ref := 1, key := "A" }] 5 "A" rfl
      ⟨{ ref := 1, key := "A" }, List.mem_singleton.mpr rfl, rfl⟩).1
  exact ⟨by simp, { ref := 3, options := {} }, rfl, by simp⟩

/-- Claim C3: for every screen except the last, when a next scene exists,
the emitted `transitionSpec`, `cardStyleInterpolator` and
`headerStyleInterpolator` are the ones resolved from the next scene's
descriptor options (falling back to the mode-default preset when unset),
replacing the scene's own resolved values, while the gesture parameters
stay the scene's own. -/
theorem lookAheadOverride (platform : HostPlatform) (preset : TransitionPreset)
    (gg : Route → Bool) (routes : List Route) (scenes : List Scene)
    (progress : String → Option AnimatedValue) (index : Nat)
    (scene nextScene : Scene) (instr : ScreenInstruction)
    (hscene : scenes.get? index = some scene)
    (hnext : scenes.get? (index + 1) = some nextScene)
    (hlast : index ≠ routes.length - 1)
    (hrender : renderScreen platform preset gg routes scenes progress index = some instr) :
    instr.transitionSpec =
      nextScene.descriptor.options.transitionSpec.getD preset.transitionSpec ∧
    instr.cardStyleInterpolator =
      nextScene.descriptor.options.cardStyleInterpolator.getD preset.cardStyleInterpolator ∧
    instr.headerStyleInterpolator =
      nextScene.descriptor.options.headerStyleInterpolator.getD preset.headerStyleInterpolator ∧
    instr.gestureDirection =
      scene.descriptor.options.gestureDirection.getD preset.gestureDirection ∧
    instr.gestureResponseDistance = scene.descriptor.options.gestureResponseDistance ∧
    instr.gestureVelocityImpact = scene.descriptor.options.gestureVelocityImpact := by
  obtain ⟨route2, scene2, next, hr2, hs2, hn2, hinstr⟩ :=
    renderScreen_inv platform preset gg routes scenes progress index instr hrender
  have hsc : scene2 = scene := Option.some.inj (hs2.symm.trans hscene)
  subst hsc
  subst hinstr
  simp only [if_neg hlast, hnext]
  exact ⟨trivial, trivial, trivial, trivial, trivial, trivial⟩

/-- Witness for C3: two routes with differing options; the instruction for
screen 0 carries route 1's resolved transition triple and route 0's own
gesture parameters. -/
theorem lookAheadOverride_witness :
    ({ routeKey := "A"
       active := false
       screenActive := ScreenActivation.const 1
       currentProgress := some { id := 1, initial := 1 }
       gestureEnabled := false
       gestureDirection := 23
       gestureResponseDistance := some 24
       gestureVelocityImpact := some 25
       transitionSpec := 30
       cardStyleInterpolator := 31
       headerStyleInterpolator := HeaderStyleInterpolator.impl 32 } :
        ScreenInstruction).transitionSpec =
      (some 30 : Option TransitionSpec).getD 10 ∧
    ({ routeKey := "A"
       active := false
       screenActive := ScreenActivation.const 1
       currentProgress := some { id := 1, initial := 1 }
       gestureEnabled := false
       gestureDirection := 23
       gestureResponseDistance := some 24
       gestureVelocityImpact := some 25
       transitionSpec := 30
       cardStyleInterpolator := 31
       headerStyleInterpolator := HeaderStyleInterpolator.impl 32 } :
        ScreenInstruction).cardStyleInterpolator =
      (some 31 : Option CardStyleInterpolator).getD 11 ∧
    ({ routeKey := "A"
       active := false
       screenActive := ScreenActivation.const 1
       currentProgress := some { id := 1, initial := 1 }
       gestureEnabled := false
       gestureDirection := 23
       gestureResponseDistance := some 24
       gestureVelocityImpact := some 25
       transitionSpec := 30
       cardStyleInterpolator := 31
       headerStyleInterpolator := HeaderStyleInterpolator.impl 32 } :
        ScreenInstruction).headerStyleInterpolator =
      (some (HeaderStyleInterpolator.impl 32) :
        Option HeaderStyleInterpolator).getD (HeaderStyleInterpolator.impl 13) ∧
    ({ routeKey := "A"
       active := false
       screenActive := ScreenActivation.const 1
       currentProgress := some { id := 1, initial := 1 }
       gestureEnabled := false
       gestureDirection := 23
       gestureResponseDistance := some 24
       gestureVelocityImpact := some 25
       transitionSpec := 30
       cardStyleInterpolator := 31
       headerStyleInterpolator := HeaderStyleInterpolator.impl 32 } :
        ScreenInstruction).gestureDirection =
      (some 23 : Option GestureDirection).getD 12 ∧
    ({ routeKey := "A"
       active := false
       screenActive := ScreenActivation.const 1
       currentProgress := some { id := 1, initial := 1 }
       gestureEnabled := false
       gestureDirection := 23
       gestureResponseDistance := some 24
       gestureVelocityImpact := some 25
       transitionSpec := 30
       cardStyleInterpolator := 31
       headerStyleInterpolator := HeaderStyleInterpolator.impl 32 } :
        ScreenInstruction).gestureResponseDistance =
      (some 24 : Option GestureResponseDistance) ∧
    ({ routeKey := "A"
       active := false
       screenActive := ScreenActivation.const 1
       currentProgress := some { id := 1, initial := 1 }
       gestureEnabled := false
       gestureDirection := 23
       gestureResponseDistance := some 24
       gestureVelocityImpact := some 25
       transitionSpec := 30
       cardStyleInterpolator := 31
       headerStyleInterpolator := HeaderStyleInterpolator.impl 32 } :
        ScreenInstruction).gestureVelocityImpact =
      (some 25 : Option GestureVelocityImpact) :=
  lookAheadOverride { os := PlatformOS.ios, isPad := false }
    { gestureDirection := 12, transitionSpec := 10, cardStyleInterpolator := 11,
      headerStyleInterpolator := HeaderStyleInterpolator.impl 13 }
    (fun _ => true)
    [{ ref := 1, key := "A" }, { ref := 2, key := "B" }]
    [{ route := { ref := 1, key := "A" }, previous := Option.none,
       descriptor :=
         { ref := 4,
           options :=
             { gestureDirection := some 23, transitionSpec := some 20,
               cardStyleInterpolator := some 21,
               headerStyleInterpolator := some (HeaderStyleInterpolator.impl 22),
               gestureResponseDistance := some 24,
               gestureVelocityImpact := some 25 } },
       progress := { current := some { id := 1, initial := 1 },
                     next := some { id := 2, initial := 1 },
                     previous := Option.none } },
     { route := { ref := 2, key := "B" }, previous := some { ref := 1, key := "A" },
       descriptor :=
         { ref := 5,
           options :=
             { transitionSpec := some 30, cardStyleInterpolator := some 31,
               headerStyleInterpolator := some (HeaderStyleInterpolator.impl 32) } },
       progress := { current := some { id := 2, initial := 1 },
                     next := Option.none,
                     previous := some { id := 1, initial := 1 } } }]
    (setKey (setKey emptyKeyMap "A" { id := 1, initial := 1 }) "B"
      { id := 2, initial := 1 })
    0 _ _ _ rfl rfl (by decide) rfl

/-- Claim C4: when the newly computed scene at index i has the same route
reference, descriptor reference and the same three progress references as
the previously stored scene at index i, the derivation returns the previous
scene object itself; consequently re-deriving scenes with identical routes,
descriptors and progress maps yields reference-equal scene objects at every
index. -/
theorem sceneMemoization :
    (∀ (p : String → Option AnimatedValue) (pD sD : DescriptorMap)
       (olds : List Scene) (routes : List Route) (i : Nat) (r : Route)
       (old : Scene),
       routes.get? i = some r → olds.get? i = some old →
       old.route = r →
       old.progress.current = p r.key →
       old.progress.next =
         (match routes.get? (i + 1) with
          | some nr => p nr.key
          | Option.none => Option.none) →
       old.progress.previous =
         (match (if i = 0 then Option.none else routes.get? (i - 1)) with
          | some pr => p pr.key
          | Option.none => Option.none) →
       old.descriptor = resolveDescriptor pD sD (some old) r.key →
       (buildScenes p pD sD olds routes).get? i = some old) ∧
    (∀ (p : String → Option AnimatedValue) (pD sD : DescriptorMap)
       (olds : List Scene) (routes : List Route),
       buildScenes p pD sD (buildScenes p pD sD olds routes) routes =
         buildScenes p pD sD olds routes) := by
  constructor
  · intro p pD sD olds routes i r old hr ho h1 h2 h3 h4 h5
    rw [buildScenes_get?, hr, Option.map_some']
    congr 1
    apply buildScene_memo p pD sD olds routes i r old ho
    · rw [computeScene_route, h1]
    · rw [h2]; rfl
    · rw [h3]; rfl
    · rw [h4]; rfl
    · rw [computeScene_descriptor, ho, h5]
  · exact buildScenes_idem

/-- Witness for C4: a stored scene whose route, descriptor and progress
references all match the fresh computation is returned unchanged. -/
theorem sceneMemoization_witness :
    (buildScenes (setKey emptyKeyMap "A" { id := 3, initial := 1 })
        { ref := 1, entries := [("A", { ref := 4, options := {} })] }
        { ref := 2, entries := [] }
        [{ route := { ref := 1, key := "A" }, previous := Option.none,
           descriptor := { ref := 4, options := {} },
           progress := { current := some { id := 3, initial := 1 },
                         next := Option.none, previous := Option.none } }]
        [{ ref := 1, key := "A" }]).get? 0 =
      some
        { route := { ref := 1, key := "A" }, previous := Option.none,
          descriptor := { ref := 4, options := {} },
          progress := { current := some { id := 3, initial := 1 },
                        next := Option.none, previous := Option.none } } := by
  apply sceneMemoization.1 (setKey emptyKeyMap "A" { id := 3, initial := 1 })
    { ref := 1, entries := [("A", { ref := 4, options := {} })] }
    { ref := 2, entries := [] }
    [{ route := { ref := 1, key := "A" }, previous := Option.none,
       descriptor := { ref := 4, options := {} },
       progress := { current := some { id := 3, initial := 1 },
                     next := Option.none, previous := Option.none } }]
    [{ ref := 1, key := "A" }] 0 { ref := 1, key := "A" }
    { route := { ref := 1, key := "A" }, previous := Option.none,
      descriptor := { ref := 4, options := {} },
      progress := { current := some { id := 3, initial := 1 },
                    next := Option.none, previous := Option.none } }
    rfl rfl rfl rfl rfl rfl rfl

/-- Claim C5: the top screen's activation is the constant 1; on a platform
without native view-recycling (not Android) the second-from-top screen is
also the constant 1 and every lower screen is the constant 0; on a platform
with native view-recycling (Android) every non-top screen's activation is
the conditional `cond(eq(next, 1), 0, 1)` over the next route's live
progress — active while that progress is not 1, inactive once it is 1 —
and the render loop wires `next` to the next route's progress value. -/
theorem activationPolicy :
    (∀ (platform : HostPlatform) (total index : Nat) (next : AnimatedValue),
       index = total - 1 →
       isScreenActive platform index total next = ScreenActivation.const 1) ∧
    (∀ (platform : HostPlatform) (total index : Nat) (next : AnimatedValue),
       platform.os ≠ PlatformOS.android → index ≠ total - 1 →
       index = total - 2 →
       isScreenActive platform index total next = ScreenActivation.const 1) ∧
    (∀ (platform : HostPlatform) (total index : Nat) (next : AnimatedValue),
       platform.os ≠ PlatformOS.android → index + 2 < total →
       isScreenActive platform index total next = ScreenActivation.const 0) ∧
    (∀ (platform : HostPlatform) (total index : Nat) (next : AnimatedValue),
       platform.os = PlatformOS.android → index ≠ total - 1 →
       isScreenActive platform index total next =
         ScreenActivation.condNextEqOne next ∧
       ∀ q : ℚ, evalActivation (isScreenActive platform index total next) q =
         if q = 1 then 0 else 1) ∧
    (∀ (platform : HostPlatform) (preset : TransitionPreset) (gg : Route → Bool)
       (routes : List Route) (scenes : List Scene)
       (progress : String → Option AnimatedValue) (index : Nat) (nr : Route)
       (nv : AnimatedValue) (instr : ScreenInstruction),
       routes.get? (index + 1) = some nr → progress nr.key = some nv →
       renderScreen platform preset gg routes scenes progress index = some instr →
       instr.screenActive = isScreenActive platform index routes.length nv) ∧
    (∀ (platform : HostPlatform) (preset : TransitionPreset) (gg : Route → Bool)
       (routes : List Route) (scenes : List Scene)
       (progress : String → Option AnimatedValue) (index : Nat)
       (instr : ScreenInstruction),
       index = routes.length - 1 →
       renderScreen platform preset gg routes scenes progress index = some instr →
       instr.screenActive = ScreenActivation.const 1) := by
  refine ⟨?_, ?_, ?_, ?_, ?_, ?_⟩
  · intro platform total index next h
    unfold isScreenActive
    rw [if_pos h]
  · intro platform total index next hos hlast h2
    unfold isScreenActive
    rw [if_neg hlast, if_neg hos, if_pos h2]
  · intro platform total index next hos hlt
    unfold isScreenActive
    rw [if_neg (by omega : ¬index = total - 1), if_neg hos,
      if_neg (by omega : ¬index = total - 2)]
  · intro platform total index next hos hlast
    unfold isScreenActive
    rw [if_neg hlast, if_pos hos]
    exact ⟨rfl, fun q => rfl⟩
  · intro platform preset gg routes scenes progress index nr nv instr hnr hnv hrender
    obtain ⟨route2, scene2, next, hr2, hs2, hn2, hinstr⟩ :=
      renderScreen_inv platform preset gg routes scenes progress index instr hrender
    rw [hnr] at hn2
    dsimp only at hn2
    rw [hnv] at hn2
    have : next = nv := (Option.some.inj hn2).symm
    subst this
    subst hinstr
    rfl
  · intro platform preset gg routes scenes progress index instr hlast hrender
    obtain ⟨route2, scene2, next, hr2, hs2, hn2, hinstr⟩ :=
      renderScreen_inv platform preset gg routes scenes progress index instr hrender
    subst hinstr
    show isScreenActive platform index routes.length next = ScreenActivation.const 1
    unfold isScreenActive
    rw [if_pos hlast]

/-- Witness for C5: with 4 routes on a non-Android platform, index 3 is
constant 1, index 2 is constant 1, and indices 0 and 1 are constant 0;
on Android, index 2 is the conditional over the next progress, which
evaluates to 0 at progress 1 and to 1 at progress 1/2. -/
theorem activationPolicy_witness :
    isScreenActive { os := PlatformOS.ios, isPad := false } 3 4
        { id := 9, initial := 1 } = ScreenActivation.const 1 ∧
    isScreenActive { os := PlatformOS.ios, isPad := false } 2 4
        { id := 9, initial := 1 } = ScreenActivation.const 1 ∧
    isScreenActive { os := PlatformOS.ios, isPad := false } 1 4
        { id := 9, initial := 1 } = ScreenActivation.const 0 ∧
    isScreenActive { os := PlatformOS.ios, isPad := false } 0 4
        { id := 9, initial := 1 } = ScreenActivation.const 0 ∧
    isScreenActive { os := PlatformOS.android, isPad := false } 2 4
        { id := 9, initial := 1 } =
      ScreenActivation.condNextEqOne { id := 9, initial := 1 } ∧
    evalActivation
        (isScreenActive { os := PlatformOS.android, isPad := false } 2 4
          { id := 9, initial := 1 }) 1 = 0 ∧
    evalActivation
        (isScreenActive { os := PlatformOS.android, isPad := false } 2 4
          { id := 9, initial := 1 }) (1 / 2) = 1 := by
  refine ⟨?_, ?_, ?_, ?_, ?_, ?_, ?_⟩
  · exact activationPolicy.1 _ 4 3 _ (by decide)
  · exact activationPolicy.2.1 _ 4 2 _ (by decide) (by decide) (by decide)
  · exact activationPolicy.2.2.1 _ 4 1 _ (by decide) (by decide)
  · exact activationPolicy.2.2.1 _ 4 0 _ (by decide) (by decide)
  · exact (activationPolicy.2.2.2.1 _ 4 2 _ rfl (by decide)).1
  · rw [(activationPolicy.2.2.2.1 _ 4 2 { id := 9, initial := 1 } rfl (by decide)).2 1]
    norm_num
  · rw [(activationPolicy.2.2.2.1 _ 4 2 { id := 9, initial := 1 } rfl (by decide)).2 (1 / 2)]
    norm_num

/-- Claim C10: the screen at index 0 is always emitted with gestures
disabled regardless of the external gesture-enablement callback; every
screen at index 1 or higher receives the callback's value. -/
theorem bottomGestureDisabled (platform : HostPlatform)
    (preset : TransitionPreset) (gg : Route → Bool) (routes : List Route)
    (scenes : List Scene) (progress : String → Option AnimatedValue)
    (index : Nat) (route : Route) (instr : ScreenInstruction)
    (hroute : routes.get? index = some route)
    (hrender : renderScreen platform preset gg routes scenes progress index = some instr) :
    (index = 0 → instr.gestureEnabled = false) ∧
    (index ≠ 0 → instr.gestureEnabled = gg route) := by
  obtain ⟨route2, scene2, next, hr2, hs2, hn2, hinstr⟩ :=
    renderScreen_inv platform preset gg routes scenes progress index instr hrender
  have hro : route2 = route := Option.some.inj (hr2.symm.trans hroute)
  subst hro
  subst hinstr
  constructor
  · intro h0
    subst h0
    simp
  · intro hne
    simp [hne]

/-- Witness for C10: with the callback constantly true, screen 0 of two
routes still has gestures disabled. -/
theorem bottomGestureDisabled_witness :
    ({ routeKey := "A"
       active := false
       screenActive := ScreenActivation.const 1
       currentProgress := some { id := 1, initial := 1 }
       gestureEnabled := false
       gestureDirection := 0
       gestureResponseDistance := Option.none
       gestureVelocityImpact := Option.none
       transitionSpec := 0
       cardStyleInterpolator := 0
       headerStyleInterpolator := HeaderStyleInterpolator.forNoAnimation } :
        ScreenInstruction).gestureEnabled = false := by
  apply (bottomGestureDisabled { os := PlatformOS.ios, isPad := false }
      { gestureDirection := 0, transitionSpec := 0, cardStyleInterpolator := 0,
        headerStyleInterpolator := HeaderStyleInterpolator.forNoAnimation }
      (fun _ => true)
      [{ ref := 1, key := "A" }, { ref := 2, key := "B" }]
      [{ route := { ref := 1, key := "A" }, previous := Option.none,
         descriptor := { ref := 0, options := {} },
         progress := { current := some { id := 1, initial := 1 },
                       next := some { id := 2, initial := 1 },
                       previous := Option.none } },
       { route := { ref := 2, key := "B" }, previous := some { ref := 1, key := "A" },
         descriptor := { ref := 0, options := {} },
         progress := { current := some { id := 2, initial := 1 },
                       next := Option.none,
                       previous := some { id := 1, initial := 1 } } }]
      (setKey (setKey emptyKeyMap "A" { id := 1, initial := 1 }) "B"
        { id := 2, initial := 1 })
      0 { ref := 1, key := "A" } _ rfl rfl).1 rfl

/-- Claim C6 counterexample: route key `A` has previous measured height 0
and the same height 0 is reported again — the claim says no update occurs
at all, but the code performs the update (a zero previous height is falsy
in the `previousHeight && previousHeight === height` guard). -/
theorem headerHeightStability_cex :
    (setKey emptyKeyMap "A" (0 : ℚ)) "A" = some 0 ∧
    (Stack.handleFloatingHeaderLayout (setKey emptyKeyMap "A" (0 : ℚ)) "A" 0).isSome = true := by
  exact ⟨rfl, rfl⟩

/-- Claim C6 (amended): reporting measured height H for route key K changes
the header-height map at most at K (set to H) and leaves every other key's
entry unchanged; and no update occurs precisely when K's previous entry
equals H and H is nonzero (a previous entry of 0 is treated as missing by
the truthiness guard, so reporting 0 again still performs an update, which
leaves the map extensionally unchanged except that K is set to H). -/
theorem headerHeightStability_amended (heights : String → Option ℚ)
    (K : String) (H : ℚ) :
    (∀ m, Stack.handleFloatingHeaderLayout heights K H = some m →
       m K = some H ∧ ∀ k, k ≠ K → m k = heights k) ∧
    (Stack.handleFloatingHeaderLayout heights K H = Option.none ↔
       heights K = some H ∧ H ≠ 0) := by
  constructor
  · intro m hm
    unfold Stack.handleFloatingHeaderLayout at hm
    have hm2 : m = setKey heights K H := by
      cases hh : heights K with
      | none =>
        rw [hh] at hm
        exact (Option.some.inj hm).symm
      | some prev =>
        rw [hh] at hm
        dsimp only at hm
        split_ifs at hm with hcond
        all_goals
          first
            | exact Option.noConfusion hm
            | exact (Option.some.inj hm).symm
    subst hm2
    exact ⟨setKey_self heights K H, fun k hk => setKey_ne heights K k H hk⟩
  · unfold Stack.handleFloatingHeaderLayout
    cases hh : heights K with
    | none =>
      dsimp only
      constructor
      · intro hc
        exact absurd hc (by simp)
      · rintro ⟨he, -⟩
        exact absurd he (by simp)
    | some prev =>
      dsimp only
      split_ifs with hcond
      · constructor
        · intro _
          exact ⟨by rw [hcond.2], hcond.2 ▸ hcond.1⟩
        · intro _
          rfl
      · constructor
        · intro hc
          exact absurd hc (by simp)
        · rintro ⟨he, hH⟩
          have hpH : prev = H := Option.some.inj he
          exact absurd ⟨hpH ▸ hH, hpH⟩ hcond

/-- Witness for the amended C6: a nonzero previous entry equal to the
reported height produces no update. -/
theorem headerHeightStability_amended_witness :
    Stack.handleFloatingHeaderLayout (setKey emptyKeyMap "A" (7 : ℚ)) "A" 7 =
      Option.none :=
  (headerHeightStability_amended (setKey emptyKeyMap "A" (7 : ℚ)) "A" 7).2.mpr
    ⟨rfl, by norm_num⟩

/-- Claim C7: a layout event carrying dimensions equal to the stored layout
leaves the state unchanged; different dimensions replace the stored layout
and rebuild the entire header-height map, giving every route the platform
default height for the new layout (plus top inset) and discarding all prior
per-route measurements. -/
theorem layoutChangeInvalidation (platform : HostPlatform)
    (props : StackProps) (state : StackState) (e : Layout) :
    ((e.height = state.layout.height ∧ e.width = state.layout.width) →
       Stack.handleLayout platform props state e = Option.none) ∧
    (¬(e.height = state.layout.height ∧ e.width = state.layout.width) →
       ∃ s1, Stack.handleLayout platform props state e = some s1 ∧
         s1.layout = e ∧
         (∀ r ∈ props.routes.items,
            s1.floatingHeaderHeights r.key =
              some (getDefaultHeaderHeight platform e props.insets)) ∧
         (∀ k : String, (∀ r ∈ props.routes.items, r.key ≠ k) →
            s1.floatingHeaderHeights k = Option.none)) := by
  constructor
  · intro hg
    unfold Stack.handleLayout
    rw [if_pos hg]
  · intro hg
    unfold Stack.handleLayout
    rw [if_neg hg]
    refine ⟨_, rfl, rfl, ?_, ?_⟩
    · intro r hr
      dsimp only
      rw [getFloatingHeaderHeights_lookup]
      rw [if_pos ⟨r, hr, rfl⟩]
      rfl
    · intro k hk
      dsimp only
      rw [getFloatingHeaderHeights_lookup]
      rw [if_neg ?_]
      rintro ⟨r, hr, hkey⟩
      exact hk r hr hkey

/-- Witness for C7: rotating a 360×640 layout to 640×360 resets route `A`'s
measured height 99 to the platform default for the new layout. -/
theorem layoutChangeInvalidation_witness :
    ∃ s1, Stack.handleLayout { os := PlatformOS.other, isPad := false }
        { routes := { ref := 1, items := [{ ref := 1, key := "A" }] },
          descriptors := { ref := 1, entries := [] },
          openingRoutesKeys := [], insets := Option.none }
        { routes := { ref := 1, items := [{ ref := 1, key := "A" }] },
          descriptors := { ref := 1, entries := [] },
          scenes := [],
          progress := emptyKeyMap,
          layout := { width := 360, height := 640 },
          floatingHeaderHeights := setKey emptyKeyMap "A" 99 }
        { width := 640, height := 360 } = some s1 ∧
      s1.layout = { width := 640, height := 360 } ∧
      (∀ r ∈ [({ ref := 1, key := "A" } : Route)],
         s1.floatingHeaderHeights r.key =
           some (getDefaultHeaderHeight { os := PlatformOS.other, isPad := false }
             { width := 640, height := 360 } Option.none)) ∧
      (∀ k : String, (∀ r ∈ [({ ref := 1, key := "A" } : Route)], r.key ≠ k) →
         s1.floatingHeaderHeights k = Option.none) :=
  (layoutChangeInvalidation { os := PlatformOS.other, isPad := false }
    { routes := { ref := 1, items := [{ ref := 1, key := "A" }] },
      descriptors := { ref := 1, entries := [] },
      openingRoutesKeys := [], insets := Option.none }
    { routes := { ref := 1, items := [{ ref := 1, key := "A" }] },
      descriptors := { ref := 1, entries := [] },
      scenes := [],
      progress := emptyKeyMap,
      layout := { width := 360, height := 640 },
      floatingHeaderHeights := setKey emptyKeyMap "A" 99 }
    { width := 640, height := 360 }).2 (by norm_num)

theorem resolveDescriptor_all_none (pD sD : DescriptorMap) (k : String)
    (h1 : lookupDesc pD k = Option.none)
    (h2 : lookupDesc sD k = Option.none) :
    resolveDescriptor pD sD Option.none k = FALLBACK_DESCRIPTOR := by
  unfold resolveDescriptor
  rw [h1, h2]

/-- Claim C8 counterexample: with route `A` absent from both the fresh and
the previous descriptor maps but with a previous scene at index 0 holding
descriptor identity 5, the derivation resolves the scene's descriptor to
that old scene's descriptor — not to the frozen empty-options placeholder
as the claim requires.  (The state is reachable: the old scene's
descriptor is left over from a derivation in which the maps still held
it.) -/
theorem fallbackDescriptor_cex :
    ((Stack.getDerivedStateFromProps { os := PlatformOS.ios, isPad := false }
        { routes := { ref := 1, items := [{ ref := 1, key := "A" }] },
          descriptors := { ref := 3, entries := [] },
          openingRoutesKeys := [], insets := Option.none }
        { routes := { ref := 1, items := [{ ref := 1, key := "A" }] },
          descriptors := { ref := 2, entries := [] },
          scenes := [{ route := { ref := 1, key := "A" },
                       previous := Option.none,
                       descriptor := { ref := 5, options := {} },
                       progress := { current := some { id := 1, initial := 1 },
                                     next := Option.none,
                                     previous := Option.none } }],
          progress := setKey emptyKeyMap "A" { id := 1, initial := 1 },
          layout := { width := 360, height := 640 },
          floatingHeaderHeights := emptyKeyMap } 9).map
      (fun sf => (sf.1.scenes.get? 0).map Scene.descriptor)) =
      some (some { ref := 5, options := {} }) ∧
    ({ ref := 5, options := {} } : Descriptor) ≠ FALLBACK_DESCRIPTOR ∧
    lookupDesc { ref := 3, entries := [] } "A" = Option.none ∧
    lookupDesc { ref := 2, entries := [] } "A" = Option.none := by
  refine ⟨by rfl, by decide, rfl, rfl⟩

/-- Claim C8 (amended): a scene's descriptor is resolved as the fresh
descriptor map entry for its key if present, else the previous state's
entry, else the descriptor of the scene previously stored at the same
index, else the frozen shared empty-options placeholder; a route with no
descriptor anywhere still derives (no error), and a scene carrying the
placeholder resolves its own transition configuration entirely from the
mode-default preset. -/
theorem fallbackDescriptor_amended :
    (∀ (platform : HostPlatform) (props : StackProps) (state : StackState)
       (fresh : Nat) (s1 : StackState) (f1 : Nat) (i : Nat) (r : Route),
       Stack.getDerivedStateFromProps platform props state fresh = some (s1, f1) →
       props.routes.items.get? i = some r →
       ∃ sc, s1.scenes.get? i = some sc ∧
         sc.descriptor =
           resolveDescriptor props.descriptors state.descriptors
             (state.scenes.get? i) r.key ∧
         (lookupDesc props.descriptors r.key = Option.none →
          lookupDesc state.descriptors r.key = Option.none →
          state.scenes.get? i = Option.none →
          sc.descriptor = FALLBACK_DESCRIPTOR)) ∧
    (∀ (platform : HostPlatform) (preset : TransitionPreset) (gg : Route → Bool)
       (routes : List Route) (scenes : List Scene)
       (progress : String → Option AnimatedValue) (index : Nat) (r : Route)
       (sc : Scene) (instr : ScreenInstruction),
       routes.get? index = some r → scenes.get? index = some sc →
       sc.descriptor = FALLBACK_DESCRIPTOR →
       index = routes.length - 1 →
       renderScreen platform preset gg routes scenes progress index = some instr →
       instr.transitionSpec = preset.transitionSpec ∧
       instr.cardStyleInterpolator = preset.cardStyleInterpolator ∧
       instr.headerStyleInterpolator = preset.headerStyleInterpolator ∧
       instr.gestureDirection = preset.gestureDirection) := by
  constructor
  · intro platform props state fresh s1 f1 i r hderive hi
    unfold Stack.getDerivedStateFromProps at hderive
    by_cases hg : props.routes = state.routes ∧ props.descriptors = state.descriptors
    · rw [if_pos hg] at hderive
      exact Option.noConfusion hderive
    · rw [if_neg hg] at hderive
      have hpair := Option.some.inj hderive
      have hs1 := congrArg Prod.fst hpair
      dsimp only at hs1
      refine ⟨buildScene (ensureProgress props.openingRoutesKeys props.descriptors
          state.progress props.routes.items fresh).1 props.descriptors
          state.descriptors state.scenes props.routes.items i r, ?_, ?_, ?_⟩
      · rw [← hs1]
        dsimp only
        rw [buildScenes_get?, hi, Option.map_some']
      · exact buildScene_descriptor _ _ _ _ _ _ _
      · intro h1 h2 h3
        rw [buildScene_descriptor, h3]
        exact resolveDescriptor_all_none props.descriptors state.descriptors r.key h1 h2
  · intro platform preset gg routes scenes progress index r sc instr hr hs hdesc hlast hrender
    obtain ⟨route2, scene2, next, hr2, hs2, hn2, hinstr⟩ :=
      renderScreen_inv platform preset gg routes scenes progress index instr hrender
    have hsc : scene2 = sc := Option.some.inj (hs2.symm.trans hs)
    subst hsc
    subst hinstr
    simp only [if_pos hlast, hdesc]
    exact ⟨rfl, rfl, rfl, rfl⟩

/-- Witness for the amended C8: a route with no descriptor in either map
and no previous scene resolves to the placeholder. -/
theorem fallbackDescriptor_amended_witness :
    ∃ sc, (({ routes := { ref := 1, items := [{ ref := 1, key := "A" }] },
              descriptors := { ref := 3, entries := [] },
              scenes := buildScenes
                (ensureProgress [] { ref := 3, entries := [] } emptyKeyMap
                  [{ ref := 1, key := "A" }] 4).1
                { ref := 3, entries := [] } { ref := 2, entries := [] } []
                [{ ref := 1, key := "A" }],
              progress := (ensureProgress [] { ref := 3, entries := [] }
                emptyKeyMap [{ ref := 1, key := "A" }] 4).1,
              layout := { width := 360, height := 640 },
              floatingHeaderHeights :=
                getFloatingHeaderHeights { os := PlatformOS.ios, isPad := false }
                  [{ ref := 1, key := "A" }] Option.none
                  { width := 360, height := 640 } emptyKeyMap } :
        StackState)).scenes.get? 0 = some sc ∧
      sc.descriptor =
        resolveDescriptor { ref := 3, entries := [] } { ref := 2, entries := [] }
          (([] : List Scene).get? 0) "A" ∧
      (lookupDesc { ref := 3, entries := [] } "A" = Option.none →
       lookupDesc { ref := 2, entries := [] } "A" = Option.none →
       ([] : List Scene).get? 0 = Option.none →
       sc.descriptor = FALLBACK_DESCRIPTOR) := by
  have h := fallbackDescriptor_amended.1 { os := PlatformOS.ios, isPad := false }
    { routes := { ref := 1, items := [{ ref := 1, key := "A" }] },
      descriptors := { ref := 3, entries := [] },
      openingRoutesKeys := [], insets := Option.none }
    { routes := { ref := 1, items := [] },
      descriptors := { ref := 2, entries := [] },
      scenes := [],
      progress := emptyKeyMap,
      layout := { width := 360, height := 640 },
      floatingHeaderHeights := emptyKeyMap } 4 _ _ 0 { ref := 1, key := "A" }
    rfl rfl
  exact h

/-- Claim C9: when `headerMode` is `float`, the floating header is emitted
exactly once, outside the per-route loop (the render output has a single
floating-header slot), with the focused route's `headerStyleInterpolator`
option whenever defined, and the mode-default preset's header interpolator
when the focused route has no descriptor or leaves the option unset; when
`headerMode` is not `float`, no floating header is emitted. -/
theorem floatingHeaderOnce (platform : HostPlatform) (mode : StackMode)
    (headerMode : HeaderMode) (dT mT : TransitionPreset) (gg : Route → Bool)
    (navRoutes : List Route) (navIndex : Nat) (descriptors : DescriptorMap)
    (routes : List Route) (scenes : List Scene)
    (progress : String → Option AnimatedValue) (fr : Route)
    (out : RenderOutput)
    (hnav : navRoutes.get? navIndex = some fr)
    (hrender : Stack.render platform mode headerMode dT mT gg navRoutes
        navIndex descriptors routes scenes progress = some out) :
    (headerMode = HeaderMode.float →
      out.floatingHeader = some
        { styleInterpolator :=
            (match lookupDesc descriptors fr.key with
             | some d => d.options.headerStyleInterpolator
             | Option.none => Option.none).getD
              ((if mode = StackMode.modal then mT else dT).headerStyleInterpolator) }) ∧
    (headerMode ≠ HeaderMode.float → out.floatingHeader = Option.none) := by
  unfold Stack.render at hrender
  rw [hnav] at hrender
  dsimp only at hrender
  cases hm : (List.range routes.length).mapM
      (renderScreen platform (defaultTransitionPreset mode headerMode dT mT)
        gg routes scenes progress) with
  | none =>
    rw [hm] at hrender
    exact Option.noConfusion hrender
  | some screens =>
    rw [hm] at hrender
    dsimp only at hrender
    have hout : out = _ := (Option.some.inj hrender).symm
    subst hout
    constructor
    · intro hfloat
      subst hfloat
      dsimp only
      rw [if_pos rfl]
      cases hd : lookupDesc descriptors fr.key <;> rfl
    · intro hnfloat
      dsimp only
      rw [if_neg hnfloat]

/-- Witness for C9: focused route `F` declares interpolator identity 9 and
the float-mode render output carries exactly it. -/
theorem floatingHeaderOnce_witness :
    ({ screens := [],
       floatingHeader := some { styleInterpolator := HeaderStyleInterpolator.impl 9 } } :
        RenderOutput).floatingHeader =
      some { styleInterpolator := HeaderStyleInterpolator.impl 9 } :=
  (floatingHeaderOnce { os := PlatformOS.ios, isPad := false } StackMode.card
    HeaderMode.float
    { gestureDirection := 1, transitionSpec := 2, cardStyleInterpolator := 3,
      headerStyleInterpolator := HeaderStyleInterpolator.impl 4 }
    { gestureDirection := 5, transitionSpec := 6, cardStyleInterpolator := 7,
      headerStyleInterpolator := HeaderStyleInterpolator.impl 8 }
    (fun _ => true) [{ ref := 1, key := "F" }] 0
    { ref := 1,
      entries := [("F",
        { ref := 2,
          options := { headerStyleInterpolator := some (HeaderStyleInterpolator.impl 9) } })] }
    [] [] emptyKeyMap { ref := 1, key := "F" } _ rfl rfl).1 rfl
